import Mathlib

set_option maxRecDepth 100000

/-!
# waba-toolkit — verification of the webhook classification, signature
verification and media retrieval core

Shallow embedding of the TypeScript sources:

* `verifyWebhookSignature` (webhook signature verification via HMAC-SHA256,
  `src/webhooks/verify.ts`) — bytes are `List Nat` with entries `< 256`,
  JS strings are `List Char` (JS string operations used here — `startsWith`,
  `slice`, emptiness — act the same on UTF-16 units and on code points for
  the ASCII prefixes involved), `Buffer.from(·, 'utf-8')` is `utf8Encode`,
  and `node:crypto`'s `createHmac('sha256', ·)` is the `hmacSha256` below,
  a full executable HMAC-SHA256 over `Nat` arithmetic.
* `classifyWebhook` / `classifyMessage` (`src/webhooks/classify.ts`).
* the helper extractors (`src/helpers.ts`).
* `WABAClient.getMedia` / `fetchMediaMetadata` / `downloadMedia`
  (media two-step protocol), with the HTTP transport as an explicit oracle.
-/

/-! ## Bytes, 32-bit words -/

/-- Truncate to a 32-bit word, as JS/engine arithmetic does inside SHA-256. -/
def w32 (n : Nat) : Nat := n % 4294967296

/-- Right rotation of a 32-bit word. -/
def rotr (k n : Nat) : Nat := w32 ((n >>> k) ||| (n <<< (32 - k)))

/-! ## SHA-256 (FIPS 180-4), executable over `Nat` -/

def bsig0 (x : Nat) : Nat := (rotr 2 x) ^^^ (rotr 13 x) ^^^ (rotr 22 x)

def bsig1 (x : Nat) : Nat := (rotr 6 x) ^^^ (rotr 11 x) ^^^ (rotr 25 x)

def ssig0 (x : Nat) : Nat := (rotr 7 x) ^^^ (rotr 18 x) ^^^ (x >>> 3)

def ssig1 (x : Nat) : Nat := (rotr 17 x) ^^^ (rotr 19 x) ^^^ (x >>> 10)

def chf (x y z : Nat) : Nat := (x &&& y) ^^^ ((x ^^^ 4294967295) &&& z)

def majf (x y z : Nat) : Nat := (x &&& y) ^^^ (x &&& z) ^^^ (y &&& z)

structure Sha256State where
  a : Nat
  b : Nat
  c : Nat
  d : Nat
  e : Nat
  f : Nat
  g : Nat
  h : Nat
deriving Repr, DecidableEq

def sha256IV : Sha256State :=
  ⟨1779033703, 3144134277, 1013904242, 2773480762,
   1359893119, 2600822924, 528734635, 1541459225⟩

def sha256K : List Nat :=
  [1116352408, 1899447441, 3049323471, 3921009573,
   961987163, 1508970993, 2453635748, 2870763221,
   3624381080, 310598401, 607225278, 1426881987,
   1925078388, 2162078206, 2614888103, 3248222580,
   3835390401, 4022224774, 264347078, 604807628,
   770255983, 1249150122, 1555081692, 1996064986,
   2554220882, 2821834349, 2952996808, 3210313671,
   3336571891, 3584528711, 113926993, 338241895,
   666307205, 773529912, 1294757372, 1396182291,
   1695183700, 1986661051, 2177026350, 2456956037,
   2730485921, 2820302411, 3259730800, 3345764771,
   3516065817, 3600352804, 4094571909, 275423344,
   430227734, 506948616, 659060556, 883997877,
   958139571, 1322822218, 1537002063, 1747873779,
   1955562222, 2024104815, 2227730452, 2361852424,
   2428436474, 2756734187, 3204031479, 3329325298]

/-- Big-endian assembly of bytes into 32-bit words (4 bytes per word). -/
def bytesToWords : List Nat → List Nat
  | b0 :: b1 :: b2 :: b3 :: rest =>
      (((b0 * 256 + b1) * 256 + b2) * 256 + b3) :: bytesToWords rest
  | _ => []

/-- Big-endian decomposition of a 32-bit word into 4 bytes. -/
def wordToBytes (n : Nat) : List Nat :=
  [(n / 16777216) % 256, (n / 65536) % 256, (n / 256) % 256, n % 256]

/-- 8-byte big-endian encoding of the message bit length. -/
def be64 (n : Nat) : List Nat :=
  [(n / 72057594037927936) % 256, (n / 281474976710656) % 256,
   (n / 1099511627776) % 256, (n / 4294967296) % 256,
   (n / 16777216) % 256, (n / 65536) % 256, (n / 256) % 256, n % 256]

/-- SHA-256 padding: append `0x80`, zero bytes to 56 mod 64, then the
64-bit big-endian bit length. -/
def sha256pad (msg : List Nat) : List Nat :=
  msg ++ 128 :: List.replicate ((120 - ((msg.length + 1) % 64)) % 64) 0
      ++ be64 (8 * msg.length)

def schedGet (w : List Nat) (i : Nat) : Nat := w.getD i 0

/-- Extend the 16-word block to the 64-word message schedule
(`n` = remaining words to append, invoked with 48). -/
def extendSchedule : Nat → List Nat → List Nat
  | 0, w => w
  | n + 1, w =>
      let i := w.length
      extendSchedule n
        (w ++ [w32 (schedGet w (i - 16) + ssig0 (schedGet w (i - 15))
          + schedGet w (i - 7) + ssig1 (schedGet w (i - 2)))])

/-- One round of the SHA-256 compression function. -/
def compressStep (st : Sha256State) (kw : Nat × Nat) : Sha256State :=
  let t1 := w32 (st.h + bsig1 st.e + chf st.e st.f st.g + kw.1 + kw.2)
  let t2 := w32 (bsig0 st.a + majf st.a st.b st.c)
  ⟨w32 (t1 + t2), st.a, st.b, st.c, w32 (st.d + t1), st.e, st.f, st.g⟩

/-- Process one 64-byte chunk: 64 compression rounds, then the feed-forward. -/
def processChunk (st : Sha256State) (chunk : List Nat) : Sha256State :=
  let w := extendSchedule 48 (bytesToWords chunk)
  let o := (sha256K.zip w).foldl compressStep st
  ⟨w32 (st.a + o.a), w32 (st.b + o.b), w32 (st.c + o.c), w32 (st.d + o.d),
   w32 (st.e + o.e), w32 (st.f + o.f), w32 (st.g + o.g), w32 (st.h + o.h)⟩

/-- Split into 64-byte chunks; the fuel bounds the number of chunks and is
instantiated with the list length (each step consumes at least one byte), so
the recursion is structural and kernel-reducible. -/
def splitChunksAux : Nat → List Nat → List (List Nat)
  | 0, _ => []
  | _ + 1, [] => []
  | n + 1, x :: xs => ((x :: xs).take 64) :: splitChunksAux n ((x :: xs).drop 64)

/-- Split the padded message into 64-byte chunks. -/
def splitChunks (l : List Nat) : List (List Nat) := splitChunksAux l.length l

/-- SHA-256 of a byte list: 32 digest bytes. -/
def sha256 (msg : List Nat) : List Nat :=
  let fin := (splitChunks (sha256pad msg)).foldl processChunk sha256IV
  wordToBytes fin.a ++ wordToBytes fin.b ++ wordToBytes fin.c
    ++ wordToBytes fin.d ++ wordToBytes fin.e ++ wordToBytes fin.f
    ++ wordToBytes fin.g ++ wordToBytes fin.h

/-- HMAC-SHA256 (RFC 2104) with SHA-256 block size 64,
as `node:crypto`'s `createHmac('sha256', key)`. -/
def hmacSha256 (key msg : List Nat) : List Nat :=
  let k0 := if 64 < key.length then sha256 key else key
  let kpad := k0 ++ List.replicate (64 - k0.length) 0
  sha256 ((kpad.map (fun b => b ^^^ 92))
    ++ sha256 ((kpad.map (fun b => b ^^^ 54)) ++ msg))

/-! Sanity: the FIPS 180-4 test vector for the empty message and `"abc"`,
and the RFC 4231 HMAC test case 2, evaluated by the kernel. -/

example : sha256 [] =
    [227, 176, 196, 66, 152, 252, 28, 20, 154, 251, 244, 200,
     153, 111, 185, 36, 39, 174, 65, 228, 100, 155, 147, 76,
     164, 149, 153, 27, 120, 82, 184, 85] := by decide

example : sha256 [97, 98, 99] =
    [186, 120, 22, 191, 143, 1, 207, 234, 65, 65, 64, 222,
     93, 174, 34, 35, 176, 3, 97, 163, 150, 23, 122, 156,
     180, 16, 255, 97, 242, 0, 21, 173] := by decide

example : hmacSha256 [74, 101, 102, 101]
    [119, 104, 97, 116, 32, 100, 111, 32, 121, 97, 32, 119,
     97, 110, 116, 32, 102, 111, 114, 32, 110, 111, 116, 104,
     105, 110, 103, 63] =
    [91, 220, 193, 70, 191, 96, 117, 78, 106, 4, 36, 38,
     8, 149, 117, 199, 90, 0, 63, 8, 157, 39, 57, 131,
     157, 236, 88, 185, 100, 236, 56, 67] := by decide

/-! ## Hex encoding and UTF-8 -/

/-- Lowercase hex digit for a value `< 16`, as node's `digest('hex')`. -/
def hexDigit (n : Nat) : Char :=
  if n < 10 then Char.ofNat (48 + n) else Char.ofNat (87 + n)

/-- Lowercase hex encoding of a byte list, two digits per byte. -/
def hexEncode : List Nat → List Char
  | [] => []
  | b :: rest => hexDigit (b / 16) :: hexDigit (b % 16) :: hexEncode rest

/-- UTF-8 encoding of one code point. -/
def charUtf8 (c : Char) : List Nat :=
  let n := c.toNat
  if n < 128 then [n]
  else if n < 2048 then [192 + n / 64, 128 + n % 64]
  else if n < 65536 then [224 + n / 4096, 128 + (n / 64) % 64, 128 + n % 64]
  else [240 + n / 262144, 128 + (n / 4096) % 64, 128 + (n / 64) % 64,
        128 + n % 64]

/-- UTF-8 encoding of a JS string (modelled as its code-point list), as
`Buffer.from(s, 'utf-8')`. -/
def utf8Encode (s : List Char) : List Nat := s.flatMap charUtf8

/-! ## `verifyWebhookSignature` (src/webhooks/verify.ts)

JS strings are `List Char`; `signature`/`appSecret` are `Option (List Char)`
(`none` = the field is `undefined`); `rawBody` is the raw byte list (the
`Buffer` case — for a JS-string body the caller passes its UTF-8 bytes, which
is exactly what `Buffer.from(rawBody, 'utf-8')` produces). A JS falsy check
`!s` on a string-or-undefined is `none` or the empty string. -/

/-- Outcome of `verifyWebhookSignature`: either a thrown
`WABASignatureError` or a returned boolean. -/
inductive VerifyOutcome where
  | sigError (message : String)
  | result (valid : Bool)
deriving Repr, DecidableEq

/-- Embedding of `verifyWebhookSignature` from `src/webhooks/verify.ts`:
throws if `appSecret` is missing/empty; returns `false` for a
missing/empty signature header; strips a leading `sha256=`; hex-encodes
HMAC-SHA256 of the raw body keyed by the secret's UTF-8 bytes; compares the
UTF-8 buffers, first by length, then byte-for-byte (`timingSafeEqual` is
extensionally byte-wise equality of equal-length buffers). -/
def verifyWebhookSignature (signature : Option (List Char)) (rawBody : List Nat)
    (appSecret : Option (List Char)) : VerifyOutcome :=
  match appSecret with
  | none => .sigError "appSecret is required for webhook verification"
  | some secret =>
    if secret.isEmpty then
      .sigError "appSecret is required for webhook verification"
    else
      match signature with
      | none => .result false
      | some sig =>
        if sig.isEmpty then .result false
        else
          let signatureHash :=
            if ("sha256=".data).isPrefixOf sig then sig.drop 7 else sig
          let expectedHash := hexEncode (hmacSha256 (utf8Encode secret) rawBody)
          let signatureBuffer := utf8Encode signatureHash
          let expectedBuffer := utf8Encode expectedHash
          if signatureBuffer.length ≠ expectedBuffer.length then .result false
          else .result (signatureBuffer == expectedBuffer)

/-- The header-stripping step of `verifyWebhookSignature`, as a standalone
function for use in theorem statements (the source inlines it). -/
def stripSigPrefix (sig : List Char) : List Char :=
  if ("sha256=".data).isPrefixOf sig then sig.drop 7 else sig

/-- The hex HMAC-SHA256 digest `verifyWebhookSignature` compares against:
`createHmac('sha256', appSecret).update(rawBody).digest('hex')`. -/
def expectedSignature (secret : List Char) (rawBody : List Nat) : List Char :=
  hexEncode (hmacSha256 (utf8Encode secret) rawBody)

/-! ## Data model (src/types/messages.ts, src/types/webhooks.ts)

Optional fields/arrays are `Option`; a JS `'k' in value` presence test is
`isSome` (well-formed payloads carry arrays in these fields, matching the
`Array.isArray` guards). Incoming messages are records carrying the free
`type` tag string plus the per-variant payloads the embedded functions
consult; variant payloads not consulted by any embedded function (location,
contacts card, interactive, reaction, button, order, system, referral) are
omitted from the record. The TS field `from` is `from_` (`from` is a Lean
keyword). -/

/-- Shared media object of image/audio/video/document/sticker messages
(variant extras — voice/filename/animated — are not consulted here). -/
structure MediaObject where
  id : String
  mime_type : String
  sha256 : String
  caption : Option String := none
deriving Repr, DecidableEq

/-- `text` payload of a text message. -/
structure TextBody where
  body : String
deriving Repr, DecidableEq

/-- An incoming message: the base fields of `IncomingMessageBase` plus the
media-variant payloads. -/
structure IncomingMessage where
  from_ : String
  id : String
  timestamp : String
  type : String
  text : Option TextBody := none
  image : Option MediaObject := none
  audio : Option MediaObject := none
  video : Option MediaObject := none
  document : Option MediaObject := none
  sticker : Option MediaObject := none
deriving Repr, DecidableEq

/-- `WebhookContact.profile` (`name` optional per WABA docs). -/
structure ContactProfile where
  name : Option String := none
deriving Repr, DecidableEq

/-- Contact info included in webhooks. -/
structure WebhookContact where
  profile : Option ContactProfile := none
  wa_id : String
deriving Repr, DecidableEq

/-- Metadata included in all webhook values. -/
structure WebhookMetadata where
  display_phone_number : String
  phone_number_id : String
deriving Repr, DecidableEq

/-- Error object in webhooks. -/
structure WebhookError where
  code : Int
  title : String
deriving Repr, DecidableEq

/-- Individual status entry (fields beyond `id` are not consulted by the
embedded functions; `id` is what `getMessageId` reads). -/
structure StatusEntry where
  id : String
  recipient_id : String
  status : String
  timestamp : String
deriving Repr, DecidableEq

/-- Call entry in call webhooks. -/
structure CallEntry where
  id : String
  from_ : String
  to_ : String
deriving Repr, DecidableEq

/-- The webhook change `value`: one loosely-typed record over which the
structural discriminants (`calls`/`statuses`/`messages`/`errors` present as
arrays) are checked. This single record type is the honest embedding of the
TS casts, which all reinterpret the same runtime object. -/
structure WebhookValue where
  metadata : WebhookMetadata
  contacts : Option (List WebhookContact) := none
  messages : Option (List IncomingMessage) := none
  statuses : Option (List StatusEntry) := none
  calls : Option (List CallEntry) := none
  errors : Option (List WebhookError) := none
deriving Repr, DecidableEq

/-- A webhook change; `value` is `Option` because `classifyWebhook` guards
`change?.value` with `if (!value)` against malformed input. -/
structure WebhookChange where
  value : Option WebhookValue
  field : String
deriving Repr, DecidableEq

/-- A webhook entry. -/
structure WebhookEntry where
  id : String
  changes : List WebhookChange
deriving Repr, DecidableEq

/-- Top-level webhook payload (`entry` empty models both an absent and an
empty `entry` array: `payload.entry?.[0]` is `undefined` in either case). -/
structure WebhookPayload where
  object : String
  entry : List WebhookEntry
deriving Repr, DecidableEq

/-- The payload slot of an `unknown` classification is TS `unknown`; the
values that can flow there are the original envelope or an inner value. -/
inductive UnknownPayload where
  | envelope (p : WebhookPayload)
  | value (v : WebhookValue)
deriving Repr, DecidableEq

/-- Discriminated union returned by `classifyWebhook`. -/
inductive WebhookClassification where
  | message (payload : WebhookValue)
  | status (payload : WebhookValue)
  | call (payload : WebhookValue)
  | unknown (payload : UnknownPayload)
deriving Repr, DecidableEq

/-- The kind tag of a classification, for kind-only statements. -/
def WebhookClassification.kind : WebhookClassification → String
  | .message _ => "message"
  | .status _ => "status"
  | .call _ => "call"
  | .unknown _ => "unknown"

/-! ## `classifyWebhook` / `classifyMessage` (src/webhooks/classify.ts) -/

/-- Embedding of `classifyWebhook`: navigate `entry?.[0]` →
`changes?.[0]` → `value`; on an absent link return
`{type: 'unknown', payload}` (the original envelope); otherwise check the
discriminants in order calls, statuses, messages, errors; the fall-through
returns `{type: 'unknown', payload}` — again the original envelope. -/
def classifyWebhook (payload : WebhookPayload) : WebhookClassification :=
  let entry := payload.entry.head?
  let change := entry.bind (fun e => e.changes.head?)
  let value := change.bind (fun c => c.value)
  match value with
  | none => .unknown (.envelope payload)
  | some v =>
    if v.calls.isSome then .call v
    else if v.statuses.isSome then .status v
    else if v.messages.isSome then .message v
    else if v.errors.isSome then .message v
    else .unknown (.envelope payload)

/-- Result of `classifyMessage`: the kind tag plus the same message. -/
structure MessageClassification where
  type : String
  message : IncomingMessage
deriving Repr, DecidableEq

/-- Embedding of `classifyMessage`: a switch on the `type` tag over the 14
recognized names with an `unsupported` default arm. -/
def classifyMessage (message : IncomingMessage) : MessageClassification :=
  match message.type with
  | "text" => ⟨"text", message⟩
  | "image" => ⟨"image", message⟩
  | "audio" => ⟨"audio", message⟩
  | "video" => ⟨"video", message⟩
  | "document" => ⟨"document", message⟩
  | "sticker" => ⟨"sticker", message⟩
  | "location" => ⟨"location", message⟩
  | "contacts" => ⟨"contacts", message⟩
  | "interactive" => ⟨"interactive", message⟩
  | "reaction" => ⟨"reaction", message⟩
  | "button" => ⟨"button", message⟩
  | "order" => ⟨"order", message⟩
  | "system" => ⟨"system", message⟩
  | "referral" => ⟨"referral", message⟩
  | _ => ⟨"unsupported", message⟩

/-- The 14 recognized message type tags, in the switch's order. -/
def recognizedTags : List String :=
  ["text", "image", "audio", "video", "document", "sticker", "location",
   "contacts", "interactive", "reaction", "button", "order", "system",
   "referral"]

/-! ## Helper extractors (src/helpers.ts) -/

/-- `MEDIA_TYPES` set from `src/helpers.ts`. -/
def MEDIA_TYPES : List String := ["image", "audio", "video", "document", "sticker"]

/-- Embedding of `isMediaMessage`: membership of the `type` tag in
`MEDIA_TYPES`. -/
def isMediaMessage (message : IncomingMessage) : Bool :=
  MEDIA_TYPES.contains message.type

/-- Embedding of `extractMediaId`: `undefined` unless `isMediaMessage`,
then a switch on the tag reading the matching media payload's `id` (the TS
property access `message.image.id` is on a well-typed `ImageMessage`; an
absent payload maps to `none`). -/
def extractMediaId (message : IncomingMessage) : Option String :=
  if !(isMediaMessage message) then none
  else
    match message.type with
    | "image" => message.image.map MediaObject.id
    | "audio" => message.audio.map MediaObject.id
    | "video" => message.video.map MediaObject.id
    | "document" => message.document.map MediaObject.id
    | "sticker" => message.sticker.map MediaObject.id
    | _ => none

/-- `ContactInfo` returned by `getContactInfo`. -/
structure ContactInfo where
  waId : String
  profileName : Option String
  phoneNumberId : String
deriving Repr, DecidableEq

/-- Embedding of `getContactInfo`: navigate to the value; return `null`
when the value is absent, has no `contacts` field, or its `contacts` array
is empty (`!value.contacts?.length`); otherwise read the first contact and
the value's metadata. -/
def getContactInfo (webhook : WebhookPayload) : Option ContactInfo :=
  let entry := webhook.entry.head?
  let change := entry.bind (fun e => e.changes.head?)
  let value := change.bind (fun c => c.value)
  match value with
  | none => none
  | some v =>
    match v.contacts with
    | none => none
    | some contacts =>
      match contacts with
      | [] => none
      | contact :: _ =>
        some ⟨contact.wa_id, contact.profile.bind ContactProfile.name,
              v.metadata.phone_number_id⟩

/-- Embedding of `getMessageId`: after the navigation, if the value has a
`messages` field return `messages?.[0]?.id ?? null`; else if it has a
`statuses` field return `statuses?.[0]?.id ?? null`; else `null`. -/
def getMessageId (webhook : WebhookPayload) : Option String :=
  let entry := webhook.entry.head?
  let change := entry.bind (fun e => e.changes.head?)
  let value := change.bind (fun c => c.value)
  match value with
  | none => none
  | some v =>
    if v.messages.isSome then
      (v.messages.bind List.head?).map IncomingMessage.id
    else if v.statuses.isSome then
      (v.statuses.bind List.head?).map StatusEntry.id
    else none

/-- Embedding of `getCallId`: after the navigation, if the value has a
`calls` field return `calls?.[0]?.id ?? null`; else `null`. -/
def getCallId (webhook : WebhookPayload) : Option String :=
  let entry := webhook.entry.head?
  let change := entry.bind (fun e => e.changes.head?)
  let value := change.bind (fun c => c.value)
  match value with
  | none => none
  | some v =>
    if v.calls.isSome then (v.calls.bind List.head?).map CallEntry.id
    else none

/-- The shared navigation `entry?.[0]` → `changes?.[0]` → `value`, as a
standalone function for theorem statements (each source function inlines
this same expression). -/
def resolveValue (p : WebhookPayload) : Option WebhookValue :=
  (p.entry.head?.bind (fun e => e.changes.head?)).bind (fun c => c.value)

/-! ## Media retrieval (`WABAClient.getMedia`, src/api/client.ts)

The two HTTP round-trips are modelled by an explicit transport oracle: one
function from the request URL to the outcome of `fetch` (a thrown
transport error, or a response with a status code and a body). Step 1's
success body is the parsed JSON (`RawMediaResponse`); Step 2's is the
binary content as a byte list (covering both the stream and the buffer
form — the stream is never buffered by the component, which the pure model
cannot distinguish). `response.ok` is `200 ≤ status < 300`. -/

/-- Raw response of `GET /{mediaId}` (`RawMediaResponse`,
src/types/media.ts): `file_size` is a string on the wire. -/
structure RawMediaResponse where
  messaging_product : String
  url : String
  mime_type : String
  sha256 : String
  file_size : String
  id : String
deriving Repr, DecidableEq

/-- Normalized media metadata (`MediaMetadata`, src/types/media.ts).
`fileSize` is the result of JS `parseInt(file_size, 10)`; `none` models
`NaN`. -/
structure MediaMetadata where
  id : String
  mimeType : String
  sha256 : String
  fileSize : Option Int
  url : String
deriving Repr, DecidableEq

/-- Outcome of one `fetch`: a thrown transport error, or a response with
its HTTP status and (already read/parsed) body. -/
inductive FetchOutcome (α : Type) where
  | fetchFailed (message : String)
  | response (status : Nat) (body : α)
deriving Repr, DecidableEq

/-- The HTTP transports `getMedia` consults, keyed by request URL. -/
structure MediaTransport where
  metadataResponse : String → FetchOutcome RawMediaResponse
  downloadResponse : String → FetchOutcome (List Nat)

/-- The client configuration read by the media methods (constructor
injection; `apiVersion`/`baseUrl` fall back to defaults at construction). -/
structure WABAClientConfig where
  accessToken : String
  baseUrl : String
  apiVersion : String
deriving Repr, DecidableEq

/-- Errors thrown by the media methods. -/
inductive WABAClientError where
  | networkError (message : String)
  | mediaError (message : String) (mediaId : String) (code : Option Nat)
deriving Repr, DecidableEq

/-- JS `parseInt(s, 10)`: skip leading whitespace, optional sign, longest
digit prefix; `none` is `NaN` (no digits). -/
def parseDigits : List Char → Option Nat → Option Nat
  | [], acc => acc
  | c :: rest, acc =>
    if c.isDigit then
      parseDigits rest (some ((acc.getD 0) * 10 + (c.toNat - 48)))
    else acc

/-- JS `parseInt(s, 10)` (radix-prefix handling is irrelevant at radix 10). -/
def jsParseInt (s : String) : Option Int :=
  match s.data.dropWhile Char.isWhitespace with
  | '-' :: rest => (parseDigits rest none).map (fun n => -(n : Int))
  | '+' :: rest => (parseDigits rest none).map (fun n => (n : Int))
  | chars => (parseDigits chars none).map (fun n => (n : Int))

/-- `response.ok`. -/
def statusOk (status : Nat) : Prop := 200 ≤ status ∧ status < 300

instance (status : Nat) : Decidable (statusOk status) := by
  unfold statusOk
  infer_instance

/-- Embedding of `WABAClient.fetchMediaMetadata` (Step 1): GET
`{baseUrl}/{apiVersion}/{mediaId}`; transport failure → `WABANetworkError`;
non-ok status → `WABAMediaError` with the media id and status; on success
normalize snake_case wire fields to the semantic fields, parsing
`file_size` with `parseInt(·, 10)`. -/
def fetchMediaMetadata (t : MediaTransport) (cfg : WABAClientConfig)
    (mediaId : String) : Except WABAClientError MediaMetadata :=
  let url := cfg.baseUrl ++ "/" ++ cfg.apiVersion ++ "/" ++ mediaId
  match t.metadataResponse url with
  | .fetchFailed msg =>
    .error (.networkError ("Failed to fetch media metadata: " ++ msg))
  | .response status data =>
    if statusOk status then
      .ok ⟨data.id, data.mime_type, data.sha256, jsParseInt data.file_size,
           data.url⟩
    else
      .error (.mediaError "Failed to fetch media metadata" mediaId
        (some status))

/-- Embedding of `WABAClient.downloadMedia` (Step 2): GET the temporary
URL; transport failure → `WABANetworkError`; non-ok status →
`WABAMediaError` tagged with the same media id. -/
def downloadMedia (t : MediaTransport) (url mediaId : String) :
    Except WABAClientError (List Nat) :=
  match t.downloadResponse url with
  | .fetchFailed msg =>
    .error (.networkError ("Failed to download media: " ++ msg))
  | .response status bytes =>
    if statusOk status then .ok bytes
    else .error (.mediaError "Failed to download media" mediaId (some status))

/-- Result of `getMedia`: metadata plus the content, as a stream or a
fully-drained buffer. -/
inductive MediaResult where
  | streamResult (metadata : MediaMetadata) (stream : List Nat)
  | bufferResult (metadata : MediaMetadata) (buffer : List Nat)
deriving Repr, DecidableEq

/-- The metadata fields of a `getMedia` result. -/
def MediaResult.metadata : MediaResult → MediaMetadata
  | .streamResult m _ => m
  | .bufferResult m _ => m

/-- Embedding of `WABAClient.getMedia`: Step 1 then Step 2, no caching (the
temporary URL used in Step 2 is the one Step 1 just returned), and the
caller-selected stream/buffer form. -/
def getMedia (t : MediaTransport) (cfg : WABAClientConfig) (mediaId : String)
    (asBuffer : Bool) : Except WABAClientError MediaResult :=
  match fetchMediaMetadata t cfg mediaId with
  | .error e => .error e
  | .ok metadata =>
    match downloadMedia t metadata.url mediaId with
    | .error e => .error e
    | .ok bytes =>
      if asBuffer then .ok (.bufferResult metadata bytes)
      else .ok (.streamResult metadata bytes)

/-! ## Sample data for witnesses and counterexamples -/

/-- Sample metadata block. -/
def sampleMetadata : WebhookMetadata := ⟨"15550000000", "123456"⟩

/-- A sample text message. -/
def sampleTextMessage : IncomingMessage :=
  { from_ := "15551112222", id := "wamid.MSG1", timestamp := "1704067200",
    type := "text", text := some ⟨"123"⟩ }

/-- A sample image message. -/
def sampleImageMessage : IncomingMessage :=
  { from_ := "15551112222", id := "wamid.IMG1", timestamp := "1704067200",
    type := "image", image := some ⟨"MEDIA1", "image/jpeg", "deadbeef", none⟩ }

/-- A message with an unrecognized future tag. -/
def sampleFutureMessage : IncomingMessage :=
  { from_ := "15551112222", id := "wamid.NEW1", timestamp := "1704067200",
    type := "unknown_new_type" }

/-- A webhook value with no discriminant array at all. -/
def plainValue : WebhookValue := { metadata := sampleMetadata }

/-- An envelope resolving to `plainValue`. -/
def plainEnvelope : WebhookPayload :=
  ⟨"whatsapp_business_account",
   [⟨"WABA1", [⟨some plainValue, "messages"⟩]⟩]⟩

/-- A (malformed but structurally possible) webhook value carrying both a
`calls` array and a `messages` array. -/
def callsAndMessagesValue : WebhookValue :=
  { metadata := sampleMetadata,
    messages := some [sampleTextMessage],
    calls := some [⟨"wacid.CALL1", "15551112222", "15550000000"⟩] }

/-- An envelope resolving to `callsAndMessagesValue`. -/
def callsAndMessagesEnvelope : WebhookPayload :=
  ⟨"whatsapp_business_account",
   [⟨"WABA1", [⟨some callsAndMessagesValue, "calls"⟩]⟩]⟩

/-- A webhook value carrying only a `calls` array. -/
def callOnlyValue : WebhookValue :=
  { metadata := sampleMetadata,
    calls := some [⟨"wacid.CALL1", "15551112222", "15550000000"⟩] }

/-- An envelope resolving to `callOnlyValue`. -/
def callOnlyEnvelope : WebhookPayload :=
  ⟨"whatsapp_business_account",
   [⟨"WABA1", [⟨some callOnlyValue, "calls"⟩]⟩]⟩

/-- An envelope whose value carries an empty `contacts` array alongside a
message. -/
def emptyContactsEnvelope : WebhookPayload :=
  ⟨"whatsapp_business_account",
   [⟨"WABA1", [⟨some { metadata := sampleMetadata, contacts := some ([]),
                       messages := some [sampleTextMessage] }, "messages"⟩]⟩]⟩

/-- Sample Step-1 wire response with `file_size: "2048"`. -/
def sampleRaw : RawMediaResponse :=
  ⟨"whatsapp", "https://lookaside.example/media/1", "image/jpeg",
   "c0ffee00", "2048", "MEDIA1"⟩

/-- Sample transport answering both steps with HTTP 200. -/
def sampleTransport : MediaTransport :=
  ⟨fun _ => .response 200 sampleRaw, fun _ => .response 200 [255, 216]⟩

/-- Sample client configuration. -/
def sampleCfg : WABAClientConfig :=
  ⟨"token", "https://graph.facebook.com", "v22.0"⟩

/-! ## Structural lemmas: the shared navigation -/

/-- `classifyWebhook` seen through `resolveValue` (the two sides inline the
same navigation expression, so this is definitional). -/
theorem classifyWebhook_resolve (p : WebhookPayload) :
    classifyWebhook p =
      match resolveValue p with
      | none => .unknown (.envelope p)
      | some v =>
        if v.calls.isSome then .call v
        else if v.statuses.isSome then .status v
        else if v.messages.isSome then .message v
        else if v.errors.isSome then .message v
        else .unknown (.envelope p) := rfl

/-- `getMessageId` seen through `resolveValue`. -/
theorem getMessageId_resolve (p : WebhookPayload) :
    getMessageId p =
      match resolveValue p with
      | none => none
      | some v =>
        if v.messages.isSome then
          (v.messages.bind List.head?).map IncomingMessage.id
        else if v.statuses.isSome then
          (v.statuses.bind List.head?).map StatusEntry.id
        else none := rfl

/-- `getContactInfo` seen through `resolveValue`. -/
theorem getContactInfo_resolve (p : WebhookPayload) :
    getContactInfo p =
      match resolveValue p with
      | none => none
      | some v =>
        match v.contacts with
        | none => none
        | some contacts =>
          match contacts with
          | [] => none
          | contact :: _ =>
            some ⟨contact.wa_id, contact.profile.bind ContactProfile.name,
                  v.metadata.phone_number_id⟩ := rfl

/-! ## C4 — discriminant priority of `classifyWebhook` -/

/-- C4: for every envelope whose resolved value contains a `calls` array,
`classifyWebhook` classifies it as kind `call` — in particular when a
`messages` array is also present; and in general the discriminants are
checked in the fixed order calls, statuses, messages, errors-as-message,
unknown, so exactly the first present one wins. -/
theorem classifyWebhook_discriminant_priority (p : WebhookPayload)
    (v : WebhookValue) (hv : resolveValue p = some v) :
    (v.calls.isSome → classifyWebhook p = .call v)
    ∧ (v.calls = none → v.statuses.isSome → classifyWebhook p = .status v)
    ∧ (v.calls = none → v.statuses = none → v.messages.isSome →
        classifyWebhook p = .message v)
    ∧ (v.calls = none → v.statuses = none → v.messages = none →
        v.errors.isSome → classifyWebhook p = .message v)
    ∧ (v.calls = none → v.statuses = none → v.messages = none →
        v.errors = none → (classifyWebhook p).kind = "unknown") := by
  rw [classifyWebhook_resolve, hv]
  refine ⟨fun h1 => by simp [h1], fun h1 h2 => by simp [h1, h2],
          fun h1 h2 h3 => by simp [h1, h2, h3],
          fun h1 h2 h3 h4 => by simp [h1, h2, h3, h4],
          fun h1 h2 h3 h4 => by simp [h1, h2, h3, h4, WebhookClassification.kind]⟩

/-- Witness for C4: the malformed value with both `calls` and `messages`
classifies as `call`, via the theorem at the concrete envelope. -/
theorem classifyWebhook_discriminant_priority_witness :
    classifyWebhook callsAndMessagesEnvelope = .call callsAndMessagesValue :=
  (classifyWebhook_discriminant_priority callsAndMessagesEnvelope
    callsAndMessagesValue (by decide)).1 (by decide)

/-! ## C5 — totality of `classifyMessage` -/

/-- C5: a message whose `type` tag is one of the 14 recognized tags
classifies to that tag with the same message object; any other tag string
(empty, numeric-looking, future) classifies to `unsupported` with the same
object. `classifyMessage` is a total function, so it never throws. -/
theorem classifyMessage_total (m : IncomingMessage) :
    (m.type ∈ recognizedTags → classifyMessage m = ⟨m.type, m⟩)
    ∧ (m.type ∉ recognizedTags → classifyMessage m = ⟨"unsupported", m⟩) := by
  constructor
  · intro h
    simp only [recognizedTags, List.mem_cons, List.not_mem_nil, or_false] at h
    rcases h with h | h | h | h | h | h | h | h | h | h | h | h | h | h <;>
      simp [classifyMessage, h]
  · intro h
    simp only [recognizedTags, List.mem_cons, List.not_mem_nil, or_false,
      not_or] at h
    unfold classifyMessage
    split <;> simp_all

/-- Witness for C5: a recognized tag (`text`), the empty tag, and an unseen
future tag, through the theorem at concrete messages. -/
theorem classifyMessage_total_witness :
    classifyMessage sampleTextMessage = ⟨"text", sampleTextMessage⟩
    ∧ classifyMessage sampleFutureMessage = ⟨"unsupported", sampleFutureMessage⟩
    ∧ classifyMessage { sampleFutureMessage with type := "" }
        = ⟨"unsupported", { sampleFutureMessage with type := "" }⟩ :=
  ⟨(classifyMessage_total sampleTextMessage).1 (by decide),
   (classifyMessage_total sampleFutureMessage).2 (by decide),
   (classifyMessage_total _).2 (by decide)⟩

/-! ## C6 — totality and payload of `classifyWebhook`

The navigation and priority parts of the claim hold, but its last clause
fails on the code: at the fall-through (a resolved value matching no
discriminant) the source returns `{ type: 'unknown', payload }` where
`payload` is the function's *parameter* — the original envelope — not the
inner value. -/

/-- Counterexample to C6 as stated: a concrete envelope whose resolved
inner value matches no discriminant; `classifyWebhook` returns the unknown
classification carrying the original envelope, which is a different value
from the unknown classification carrying the inner value that the claim
prescribes. -/
theorem classifyWebhook_unknown_payload_counterexample :
    resolveValue plainEnvelope = some plainValue
    ∧ classifyWebhook plainEnvelope = .unknown (.envelope plainEnvelope)
    ∧ WebhookClassification.unknown (.envelope plainEnvelope)
        ≠ .unknown (.value plainValue) := by decide

/-- C6 (amended): `classifyWebhook` is total (a Lean function, never
throws); an absent link in `entry[0].changes[0].value` yields
`unknown` with the original payload; otherwise the discriminant priority
order is applied with the winning kind carrying the inner value — and when
no discriminant matches, the unknown classification carries the ORIGINAL
payload (not the inner value). -/
theorem classifyWebhook_total_behavior (p : WebhookPayload) :
    (resolveValue p = none → classifyWebhook p = .unknown (.envelope p))
    ∧ (∀ v, resolveValue p = some v →
        (v.calls.isSome → classifyWebhook p = .call v)
        ∧ (v.calls = none → v.statuses.isSome → classifyWebhook p = .status v)
        ∧ (v.calls = none → v.statuses = none → v.messages.isSome →
            classifyWebhook p = .message v)
        ∧ (v.calls = none → v.statuses = none → v.messages = none →
            v.errors.isSome → classifyWebhook p = .message v)
        ∧ (v.calls = none → v.statuses = none → v.messages = none →
            v.errors = none →
            classifyWebhook p = .unknown (.envelope p))) := by
  constructor
  · intro h
    rw [classifyWebhook_resolve, h]
  · intro v hv
    rw [classifyWebhook_resolve, hv]
    refine ⟨fun h1 => by simp [h1], fun h1 h2 => by simp [h1, h2],
            fun h1 h2 h3 => by simp [h1, h2, h3],
            fun h1 h2 h3 h4 => by simp [h1, h2, h3, h4],
            fun h1 h2 h3 h4 => by simp [h1, h2, h3, h4]⟩

/-- Witness for C6 (amended): the empty envelope degrades to `unknown`
with the original payload, and the fall-through value also yields the
original envelope, via the theorem at concrete envelopes. -/
theorem classifyWebhook_total_behavior_witness :
    classifyWebhook ⟨"whatsapp_business_account", []⟩
      = .unknown (.envelope ⟨"whatsapp_business_account", []⟩)
    ∧ classifyWebhook plainEnvelope = .unknown (.envelope plainEnvelope) :=
  ⟨(classifyWebhook_total_behavior _).1 (by decide),
   ((classifyWebhook_total_behavior plainEnvelope).2 plainValue
     (by decide)).2.2.2.2 (by decide) (by decide) (by decide) (by decide)⟩

/-! ## C7 — `getMessageId` vs the classifier's priority order

The claim fails on the code: `getMessageId` checks for a `messages` field
*first* and never looks at `calls`, so a (malformed) value carrying both a
`calls` array and a `messages` array classifies as `call` yet still yields
the first message's id. -/

/-- Counterexample to C7 as stated: a concrete envelope whose value
carries both `calls` and `messages`; it does not classify as message- or
status-kind (it is call-kind), yet `getMessageId` returns an id instead of
the "not present" sentinel. -/
theorem getMessageId_priority_counterexample :
    (classifyWebhook callsAndMessagesEnvelope).kind = "call"
    ∧ getMessageId callsAndMessagesEnvelope = some "wamid.MSG1" := by decide

/-- C7 (amended): `getMessageId` re-derives the webhook value exactly as
the classifier does, but then consults `messages` and `statuses` directly,
ignoring `calls`: it returns the "not present" sentinel whenever the
resolved value is absent or carries neither a `messages` nor a `statuses`
field (which covers every call-kind and unknown-kind value without those
fields); but on a value carrying a `messages` field it returns the first
message's id even when a `calls` array is also present — diverging there
from `classifyWebhook`'s priority order. -/
theorem getMessageId_behavior (p : WebhookPayload) :
    (resolveValue p = none → getMessageId p = none)
    ∧ (∀ v, resolveValue p = some v → v.messages = none → v.statuses = none →
        getMessageId p = none)
    ∧ (∀ v ms, resolveValue p = some v → v.messages = some ms →
        getMessageId p = ms.head?.map IncomingMessage.id) := by
  refine ⟨fun h => by rw [getMessageId_resolve, h], ?_, ?_⟩
  · intro v hv h1 h2
    rw [getMessageId_resolve, hv]
    simp [h1, h2]
  · intro v ms hv h1
    rw [getMessageId_resolve, hv]
    simp [h1]

/-- Witness for C7 (amended): a call-only value yields no message id, and
the calls-plus-messages value yields the first message's id, via the
theorem at concrete envelopes. -/
theorem getMessageId_behavior_witness :
    getMessageId callOnlyEnvelope = none
    ∧ getMessageId callsAndMessagesEnvelope = some "wamid.MSG1" := by
  constructor
  · exact (getMessageId_behavior callOnlyEnvelope).2.1 callOnlyValue
      (by decide) (by decide) (by decide)
  · have h := (getMessageId_behavior callsAndMessagesEnvelope).2.2
      callsAndMessagesValue [sampleTextMessage] (by decide) (by decide)
    simpa [sampleTextMessage] using h

/-! ## C8 — `isMediaMessage` agrees with `extractMediaId` -/

/-- A message inhabits the TS `IncomingMessage` union as far as the media
variants are concerned: a media `type` tag comes with its media payload
(`ImageMessage` has `image`, etc.). -/
def mediaWellTyped (m : IncomingMessage) : Prop :=
  (m.type = "image" → m.image.isSome)
  ∧ (m.type = "audio" → m.audio.isSome)
  ∧ (m.type = "video" → m.video.isSome)
  ∧ (m.type = "document" → m.document.isSome)
  ∧ (m.type = "sticker" → m.sticker.isSome)

/-- C8: for every (well-typed) message `M`, `isMediaMessage M` holds iff
`extractMediaId M` is not absent; and on an image message the extracted id
is the image payload's `id` unchanged — likewise for audio, video,
document and sticker. -/
theorem extractMediaId_matches_isMediaMessage (m : IncomingMessage)
    (hw : mediaWellTyped m) :
    (isMediaMessage m = true ↔ (extractMediaId m).isSome = true)
    ∧ (m.type = "image" → ∀ o, m.image = some o →
        extractMediaId m = some o.id)
    ∧ (m.type = "audio" → ∀ o, m.audio = some o →
        extractMediaId m = some o.id)
    ∧ (m.type = "video" → ∀ o, m.video = some o →
        extractMediaId m = some o.id)
    ∧ (m.type = "document" → ∀ o, m.document = some o →
        extractMediaId m = some o.id)
    ∧ (m.type = "sticker" → ∀ o, m.sticker = some o →
        extractMediaId m = some o.id) := by
  obtain ⟨h1, h2, h3, h4, h5⟩ := hw
  by_cases hm : isMediaMessage m = true
  · have hcase : m.type = "image" ∨ m.type = "audio" ∨ m.type = "video"
        ∨ m.type = "document" ∨ m.type = "sticker" := by
      simpa [isMediaMessage, MEDIA_TYPES] using hm
    rcases hcase with h | h | h | h | h
    · obtain ⟨o, ho⟩ := Option.isSome_iff_exists.mp (h1 h)
      refine ⟨?_, ?_, ?_, ?_, ?_, ?_⟩ <;>
        simp [extractMediaId, isMediaMessage, MEDIA_TYPES, h, ho]
    · obtain ⟨o, ho⟩ := Option.isSome_iff_exists.mp (h2 h)
      refine ⟨?_, ?_, ?_, ?_, ?_, ?_⟩ <;>
        simp [extractMediaId, isMediaMessage, MEDIA_TYPES, h, ho]
    · obtain ⟨o, ho⟩ := Option.isSome_iff_exists.mp (h3 h)
      refine ⟨?_, ?_, ?_, ?_, ?_, ?_⟩ <;>
        simp [extractMediaId, isMediaMessage, MEDIA_TYPES, h, ho]
    · obtain ⟨o, ho⟩ := Option.isSome_iff_exists.mp (h4 h)
      refine ⟨?_, ?_, ?_, ?_, ?_, ?_⟩ <;>
        simp [extractMediaId, isMediaMessage, MEDIA_TYPES, h, ho]
    · obtain ⟨o, ho⟩ := Option.isSome_iff_exists.mp (h5 h)
      refine ⟨?_, ?_, ?_, ?_, ?_, ?_⟩ <;>
        simp [extractMediaId, isMediaMessage, MEDIA_TYPES, h, ho]
  · have hmb : isMediaMessage m = false := by
      revert hm
      cases isMediaMessage m <;> simp
    have hext : extractMediaId m = none := by
      unfold extractMediaId
      simp [hmb]
    have htags : ¬(m.type = "image" ∨ m.type = "audio" ∨ m.type = "video"
        ∨ m.type = "document" ∨ m.type = "sticker") := by
      intro hc
      exact hm (by simpa [isMediaMessage, MEDIA_TYPES] using hc)
    push_neg at htags
    obtain ⟨t1, t2, t3, t4, t5⟩ := htags
    refine ⟨?_, ?_, ?_, ?_, ?_, ?_⟩
    · simp [hmb, hext]
    · intro h
      exact absurd h t1
    · intro h
      exact absurd h t2
    · intro h
      exact absurd h t3
    · intro h
      exact absurd h t4
    · intro h
      exact absurd h t5

instance (m : IncomingMessage) : Decidable (mediaWellTyped m) := by
  unfold mediaWellTyped
  infer_instance

/-- Witness for C8: the image message — media, with its id extracted
unchanged — via the theorem at the concrete message. -/
theorem extractMediaId_matches_isMediaMessage_witness :
    (isMediaMessage sampleImageMessage = true
      ↔ (extractMediaId sampleImageMessage).isSome = true)
    ∧ extractMediaId sampleImageMessage = some "MEDIA1" :=
  ⟨(extractMediaId_matches_isMediaMessage sampleImageMessage (by decide)).1,
   (extractMediaId_matches_isMediaMessage sampleImageMessage
      (by decide)).2.1 (by decide) ⟨"MEDIA1", "image/jpeg", "deadbeef", none⟩
      (by decide)⟩

/-! ## C10 — empty `contacts` array in `getContactInfo` -/

/-- C10: on an envelope whose resolved value carries an *empty* `contacts`
array, `getContactInfo` returns the "not present" sentinel — the same
caller-visible result as when the array is absent entirely (the code's
`!value.contacts?.length` guard collapses both). -/
theorem getContactInfo_empty_contacts (p : WebhookPayload) (v : WebhookValue)
    (hv : resolveValue p = some v) :
    (v.contacts = some ([]) → getContactInfo p = none)
    ∧ (v.contacts = none → getContactInfo p = none) := by
  constructor
  · intro h
    rw [getContactInfo_resolve, hv]
    simp [h]
  · intro h
    rw [getContactInfo_resolve, hv]
    simp [h]

/-- Witness for C10: the concrete envelope with `contacts: []` yields
`null`, via the theorem. -/
theorem getContactInfo_empty_contacts_witness :
    getContactInfo emptyContactsEnvelope = none :=
  (getContactInfo_empty_contacts emptyContactsEnvelope
    { metadata := sampleMetadata, contacts := some ([]),
      messages := some [sampleTextMessage] } (by decide)).1 (by decide)

/-! ## C9 — `getMedia` parses `file_size` to an integer -/

/-- C9: when Step 1's metadata response carries `file_size` as the string
`"2048"` (and both steps succeed), the `getMedia` result's byte-length
field is the integer `2048`, and the remaining wire fields are normalized
to the semantic fields unchanged (`mime_type` → MIME type, plus id, hash
and the temporary URL). -/
theorem getMedia_parses_file_size (t : MediaTransport) (cfg : WABAClientConfig)
    (mediaId : String) (status : Nat) (raw : RawMediaResponse)
    (dstatus : Nat) (bytes : List Nat) (asBuffer : Bool)
    (h1 : t.metadataResponse
        (cfg.baseUrl ++ "/" ++ cfg.apiVersion ++ "/" ++ mediaId)
      = .response status raw)
    (hok : statusOk status)
    (hfs : raw.file_size = "2048")
    (h2 : t.downloadResponse raw.url = .response dstatus bytes)
    (hdok : statusOk dstatus) :
    (getMedia t cfg mediaId asBuffer).map (fun r => r.metadata.fileSize)
      = .ok (some 2048)
    ∧ (getMedia t cfg mediaId asBuffer).map (fun r => r.metadata.mimeType)
      = .ok raw.mime_type
    ∧ (getMedia t cfg mediaId asBuffer).map (fun r => r.metadata.id)
      = .ok raw.id
    ∧ (getMedia t cfg mediaId asBuffer).map (fun r => r.metadata.sha256)
      = .ok raw.sha256
    ∧ (getMedia t cfg mediaId asBuffer).map (fun r => r.metadata.url)
      = .ok raw.url := by
  have hparse : jsParseInt raw.file_size = some 2048 := by
    rw [hfs]
    decide
  have hmedia : getMedia t cfg mediaId asBuffer
      = (if asBuffer then
          Except.ok (.bufferResult
            ⟨raw.id, raw.mime_type, raw.sha256, some 2048, raw.url⟩ bytes)
        else
          Except.ok (.streamResult
            ⟨raw.id, raw.mime_type, raw.sha256, some 2048, raw.url⟩ bytes)) := by
    unfold getMedia fetchMediaMetadata downloadMedia
    simp only [h1, if_pos hok, hparse, h2, if_pos hdok]
  cases asBuffer <;> simp [hmedia, Except.map, MediaResult.metadata]

/-- Witness for C9: the sample transport answering `file_size: "2048"`
yields the integer byte length 2048, via the theorem at concrete inputs. -/
theorem getMedia_parses_file_size_witness :
    (getMedia sampleTransport sampleCfg "MEDIA1" false).map
      (fun r => r.metadata.fileSize) = .ok (some 2048) :=
  (getMedia_parses_file_size sampleTransport sampleCfg "MEDIA1" 200 sampleRaw
    200 [255, 216] false rfl (by decide) (by decide) rfl (by decide)).1

/-! ## C2 — missing secret is fatal -/

/-- C2: for every signature header value (including absent) and every raw
body, calling the verifier with an absent or empty secret throws
`WABASignatureError` (the configuration error), never returning a
boolean. -/
theorem verifyWebhookSignature_missing_secret (signature : Option (List Char))
    (rawBody : List Nat) (appSecret : Option (List Char))
    (h : appSecret = none ∨ appSecret = some ([])) :
    verifyWebhookSignature signature rawBody appSecret
      = .sigError "appSecret is required for webhook verification" := by
  rcases h with h | h <;> rw [h] <;> rfl

/-- Witness for C2: concrete absent and empty secrets with a present
signature and body, via the theorem. -/
theorem verifyWebhookSignature_missing_secret_witness :
    verifyWebhookSignature (some ("sha256=00".data)) [104, 105] none
      = .sigError "appSecret is required for webhook verification"
    ∧ verifyWebhookSignature (some ("sha256=00".data)) [104, 105]
        (some ("".data))
      = .sigError "appSecret is required for webhook verification" :=
  ⟨verifyWebhookSignature_missing_secret _ _ none (Or.inl rfl),
   verifyWebhookSignature_missing_secret _ _ (some ("".data))
     (Or.inr (by decide))⟩

/-! ## Digest shape lemmas (for C1 and C3) -/

/-- Every byte of a big-endian word decomposition is below 256. -/
theorem wordToBytes_lt (n : Nat) : ∀ b ∈ wordToBytes n, b < 256 := by
  intro b hb
  simp [wordToBytes] at hb
  rcases hb with h | h | h | h <;> omega

/-- SHA-256 digests have 32 bytes. -/
theorem sha256_length (msg : List Nat) : (sha256 msg).length = 32 := by
  unfold sha256
  simp [wordToBytes]

/-- SHA-256 digest bytes are below 256. -/
theorem sha256_lt (msg : List Nat) : ∀ b ∈ sha256 msg, b < 256 := by
  unfold sha256
  intro b hb
  simp only [List.mem_append] at hb
  rcases hb with ((((((h | h) | h) | h) | h) | h) | h) | h <;>
    exact wordToBytes_lt _ b h

/-- HMAC-SHA256 digests have 32 bytes. -/
theorem hmacSha256_length (key msg : List Nat) :
    (hmacSha256 key msg).length = 32 := by
  unfold hmacSha256
  exact sha256_length _

/-- HMAC-SHA256 digest bytes are below 256. -/
theorem hmacSha256_lt (key msg : List Nat) :
    ∀ b ∈ hmacSha256 key msg, b < 256 := by
  unfold hmacSha256
  exact sha256_lt _

/-! ## Hex and UTF-8 lemmas -/

/-- Hex digits are ASCII. -/
theorem hexDigit_ascii : ∀ n < 16, (hexDigit n).toNat < 128 := by decide

/-- `hexDigit` is injective below 16. -/
theorem hexDigit_inj : ∀ m < 16, ∀ n < 16, hexDigit m = hexDigit n → m = n := by
  decide

/-- Hex encoding doubles the length. -/
theorem hexEncode_length (l : List Nat) : (hexEncode l).length = 2 * l.length := by
  induction l with
  | nil => rfl
  | cons b t ih =>
    simp [hexEncode, ih]
    omega

/-- Hex encodings of byte lists are ASCII character lists. -/
theorem hexEncode_ascii : ∀ l : List Nat, (∀ b ∈ l, b < 256) →
    ∀ c ∈ hexEncode l, c.toNat < 128 := by
  intro l
  induction l with
  | nil => intro _ c hc; simp [hexEncode] at hc
  | cons b t ih =>
    intro hl c hc
    have hb : b < 256 := hl b (by simp)
    simp only [hexEncode, List.mem_cons] at hc
    rcases hc with h | h | h
    · exact h ▸ hexDigit_ascii _ (by omega)
    · exact h ▸ hexDigit_ascii _ (by omega)
    · exact ih (fun x hx => hl x (by simp [hx])) c h

/-- Hex encoding is injective on byte lists. -/
theorem hexEncode_inj : ∀ l₁ l₂ : List Nat, (∀ b ∈ l₁, b < 256) →
    (∀ b ∈ l₂, b < 256) → hexEncode l₁ = hexEncode l₂ → l₁ = l₂ := by
  intro l₁
  induction l₁ with
  | nil =>
    intro l₂ _ _ he
    cases l₂ with
    | nil => rfl
    | cons b t => simp [hexEncode] at he
  | cons a s ih =>
    intro l₂ h₁ h₂ he
    cases l₂ with
    | nil => simp [hexEncode] at he
    | cons b t =>
      simp only [hexEncode, List.cons.injEq] at he
      obtain ⟨e1, e2, e3⟩ := he
      have ha := h₁ a (by simp)
      have hb := h₂ b (by simp)
      have d1 := hexDigit_inj (a / 16) (by omega) (b / 16) (by omega) e1
      have d2 := hexDigit_inj (a % 16) (by omega) (b % 16) (by omega) e2
      have hab : a = b := by omega
      have hst : s = t :=
        ih t (fun x hx => h₁ x (by simp [hx])) (fun x hx => h₂ x (by simp [hx])) e3
      rw [hab, hst]

/-- An ASCII code point encodes to its single byte. -/
theorem charUtf8_ascii (c : Char) (h : c.toNat < 128) : charUtf8 c = [c.toNat] := by
  unfold charUtf8
  simp [h]

/-- On ASCII character lists, UTF-8 encoding is the code-point map. -/
theorem utf8Encode_ascii : ∀ l : List Char, (∀ c ∈ l, c.toNat < 128) →
    utf8Encode l = l.map Char.toNat := by
  intro l
  induction l with
  | nil => intro _; rfl
  | cons c t ih =>
    intro h
    have hc := h c (by simp)
    simp only [utf8Encode, List.flatMap_cons, List.map_cons] at *
    rw [charUtf8_ascii c hc, ih (fun x hx => h x (by simp [hx]))]
    rfl

/-- `Char.toNat` is injective. -/
theorem char_toNat_inj {c₁ c₂ : Char} (h : c₁.toNat = c₂.toNat) : c₁ = c₂ := by
  have h2 := congrArg Char.ofNat h
  simpa [Char.ofNat_toNat] using h2

/-- Mapping `Char.toNat` over a list is injective. -/
theorem map_toNat_inj {l₁ l₂ : List Char}
    (h : l₁.map Char.toNat = l₂.map Char.toNat) : l₁ = l₂ :=
  List.map_injective_iff.mpr (fun _ _ hab => char_toNat_inj hab) h

/-- On ASCII character lists, the UTF-8 byte length is the character count. -/
theorem utf8_len_ascii (l : List Char) (h : ∀ c ∈ l, c.toNat < 128) :
    (utf8Encode l).length = l.length := by
  rw [utf8Encode_ascii l h]
  simp

/-- The expected hex digest is ASCII. -/
theorem expectedSignature_ascii (secret : List Char) (body : List Nat) :
    ∀ c ∈ expectedSignature secret body, c.toNat < 128 :=
  hexEncode_ascii _ (hmacSha256_lt _ _)

/-- The expected hex digest has 64 characters. -/
theorem expectedSignature_length (secret : List Char) (body : List Nat) :
    (expectedSignature secret body).length = 64 := by
  unfold expectedSignature
  rw [hexEncode_length, hmacSha256_length]

/-- The expected comparison buffer has 64 bytes. -/
theorem expectedBuffer_length (secret : List Char) (body : List Nat) :
    (utf8Encode (expectedSignature secret body)).length = 64 := by
  rw [utf8_len_ascii _ (expectedSignature_ascii _ _), expectedSignature_length]

/-! ## `verifyWebhookSignature` unfolding lemmas -/

/-- A nonempty list is not `isEmpty`. -/
theorem isEmpty_false_of_ne_nil {l : List Char} (h : l ≠ []) :
    l.isEmpty = false := by
  cases l with
  | nil => exact absurd rfl h
  | cons a t => rfl

/-- With a present secret and signature, `verifyWebhookSignature` reduces
to the length check followed by the buffer comparison. -/
theorem verifyWebhookSignature_some (secret sig : List Char) (body : List Nat)
    (hs : secret.isEmpty = false) (hg : sig.isEmpty = false) :
    verifyWebhookSignature (some sig) body (some secret) =
      (if (utf8Encode (stripSigPrefix sig)).length
          ≠ (utf8Encode (expectedSignature secret body)).length
       then .result false
       else .result
         ((utf8Encode (stripSigPrefix sig))
           == (utf8Encode (expectedSignature secret body)))) := by
  unfold verifyWebhookSignature stripSigPrefix expectedSignature
  simp [hs, hg]

/-- Stripping the scheme prefix from a well-formed header leaves the
digest. -/
theorem stripSigPrefix_append (h : List Char) :
    stripSigPrefix ("sha256=".data ++ h) = h := by
  have h1 : stripSigPrefix ("sha256=".data ++ h)
      = ("sha256=".data ++ h).drop 7 := by
    unfold stripSigPrefix
    simp [List.isPrefixOf_iff_prefix]
  rw [h1, show (7 : Nat) = ("sha256=".data).length by decide, List.drop_left]

/-- Characters of the stripped header come from the header. -/
theorem stripSigPrefix_subset {c : Char} {sig : List Char}
    (h : c ∈ stripSigPrefix sig) : c ∈ sig := by
  unfold stripSigPrefix at h
  by_cases hp : ("sha256=".data).isPrefixOf sig
  · rw [if_pos hp] at h
    exact List.mem_of_mem_drop h
  · rwa [if_neg hp] at h

/-! ## C1 — signature correctness -/

/-- C1: for every non-empty secret `S` and body `B`, the header
`sha256=` ++ hex(HMAC-SHA256(S, B)) verifies as `true` against `B` and
`S`. Conversely the verifier answers `false` for: any body whose
HMAC digest differs from `B`'s (in particular any single-byte flip — the
digest inequality, which is the collision-freeness the claim presupposes,
enters as a hypothesis and is discharged by computation on concrete
inputs in the witness); any other secret with a differing digest
(same caveat); and — unconditionally — any alteration of one hex digit
of the signature to a different ASCII character. -/
theorem verifyWebhookSignature_correct (secret : List Char) (body : List Nat)
    (hs : secret ≠ []) :
    (verifyWebhookSignature
        (some ("sha256=".data ++ expectedSignature secret body)) body
        (some secret) = .result true)
    ∧ (∀ body', hmacSha256 (utf8Encode secret) body'
          ≠ hmacSha256 (utf8Encode secret) body →
        verifyWebhookSignature
          (some ("sha256=".data ++ expectedSignature secret body)) body'
          (some secret) = .result false)
    ∧ (∀ secret', secret' ≠ [] →
        hmacSha256 (utf8Encode secret') body
          ≠ hmacSha256 (utf8Encode secret) body →
        verifyWebhookSignature
          (some ("sha256=".data ++ expectedSignature secret body)) body
          (some secret') = .result false)
    ∧ (∀ (i : Nat) (hi : i < (expectedSignature secret body).length)
        (c : Char), c.toNat < 128 →
        c ≠ (expectedSignature secret body).get ⟨i, hi⟩ →
        verifyWebhookSignature
          (some ("sha256=".data ++ (expectedSignature secret body).set i c))
          body (some secret) = .result false) := by
  have hse := isEmpty_false_of_ne_nil hs
  have hsig : ∀ h : List Char, ("sha256=".data ++ h).isEmpty = false :=
    fun h => rfl
  refine ⟨?_, ?_, ?_, ?_⟩
  · rw [verifyWebhookSignature_some secret _ body hse (hsig _),
        stripSigPrefix_append]
    simp
  · intro body' hne
    rw [verifyWebhookSignature_some secret _ body' hse (hsig _),
        stripSigPrefix_append]
    have hhex : expectedSignature secret body ≠ expectedSignature secret body' :=
      fun hEq => hne (hexEncode_inj _ _ (hmacSha256_lt _ _) (hmacSha256_lt _ _)
        hEq).symm
    have hutf : utf8Encode (expectedSignature secret body)
        ≠ utf8Encode (expectedSignature secret body') := by
      intro hEq
      apply hhex
      apply map_toNat_inj
      rwa [← utf8Encode_ascii _ (expectedSignature_ascii secret body),
           ← utf8Encode_ascii _ (expectedSignature_ascii secret body')]
    have hlen : (utf8Encode (expectedSignature secret body)).length
        = (utf8Encode (expectedSignature secret body')).length := by
      rw [expectedBuffer_length, expectedBuffer_length]
    rw [if_neg (fun hcond => hcond hlen), beq_eq_false_iff_ne.mpr hutf]
  · intro secret' hs' hne
    have hse' := isEmpty_false_of_ne_nil hs'
    rw [verifyWebhookSignature_some secret' _ body hse' (hsig _),
        stripSigPrefix_append]
    have hhex : expectedSignature secret body ≠ expectedSignature secret' body :=
      fun hEq => hne (hexEncode_inj _ _ (hmacSha256_lt _ _) (hmacSha256_lt _ _)
        hEq.symm)
    have hutf : utf8Encode (expectedSignature secret body)
        ≠ utf8Encode (expectedSignature secret' body) := by
      intro hEq
      apply hhex
      apply map_toNat_inj
      rwa [← utf8Encode_ascii _ (expectedSignature_ascii secret body),
           ← utf8Encode_ascii _ (expectedSignature_ascii secret' body)]
    have hlen : (utf8Encode (expectedSignature secret body)).length
        = (utf8Encode (expectedSignature secret' body)).length := by
      rw [expectedBuffer_length, expectedBuffer_length]
    rw [if_neg (fun hcond => hcond hlen), beq_eq_false_iff_ne.mpr hutf]
  · intro i hi c hcasc hcne
    rw [verifyWebhookSignature_some secret _ body hse (hsig _),
        stripSigPrefix_append]
    have haltasc : ∀ x ∈ (expectedSignature secret body).set i c,
        x.toNat < 128 := by
      intro x hx
      rcases List.mem_or_eq_of_mem_set hx with h | h
      · exact expectedSignature_ascii secret body x h
      · exact h ▸ hcasc
    have haltne : (expectedSignature secret body).set i c
        ≠ expectedSignature secret body := by
      intro hEq
      have hgd := congrArg (fun l => l.getD i c) hEq
      simp only [List.getD_eq_getElem?_getD, List.getElem?_set_self hi,
        Option.getD_some, List.getElem?_eq_getElem hi] at hgd
      exact hcne (by simpa [List.get_eq_getElem] using hgd)
    have hutf : utf8Encode ((expectedSignature secret body).set i c)
        ≠ utf8Encode (expectedSignature secret body) := by
      intro hEq
      apply haltne
      apply map_toNat_inj
      rwa [← utf8Encode_ascii _ haltasc,
           ← utf8Encode_ascii _ (expectedSignature_ascii secret body)]
    have hlen : (utf8Encode ((expectedSignature secret body).set i c)).length
        = (utf8Encode (expectedSignature secret body)).length := by
      rw [utf8_len_ascii _ haltasc, List.length_set, expectedBuffer_length,
          expectedSignature_length]
    rw [if_neg (fun hcond => hcond hlen), beq_eq_false_iff_ne.mpr hutf]

/-- Witness for C1, at secret `"k"` and body `"a"` (byte 97): the correct
header verifies `true`; flipping the body byte to 98, switching to secret
`"j"`, or altering the first hex digit to `'0'` each verify `false`. The
digest-inequality hypotheses are discharged by kernel evaluation of the
embedded HMAC-SHA256. -/
theorem verifyWebhookSignature_correct_witness :
    (verifyWebhookSignature
        (some ("sha256=".data ++ expectedSignature "k".data [97])) [97]
        (some ("k".data)) = .result true)
    ∧ (verifyWebhookSignature
        (some ("sha256=".data ++ expectedSignature "k".data [97])) [98]
        (some ("k".data)) = .result false)
    ∧ (verifyWebhookSignature
        (some ("sha256=".data ++ expectedSignature "k".data [97])) [97]
        (some ("j".data)) = .result false)
    ∧ (verifyWebhookSignature
        (some ("sha256=".data ++ (expectedSignature "k".data [97]).set 0 '0'))
        [97] (some ("k".data)) = .result false) :=
  ⟨(verifyWebhookSignature_correct ("k".data) [97] (by decide)).1,
   (verifyWebhookSignature_correct ("k".data) [97] (by decide)).2.1 [98]
     (by decide),
   (verifyWebhookSignature_correct ("k".data) [97] (by decide)).2.2.1
     ("j".data) (by decide) (by decide),
   (verifyWebhookSignature_correct ("k".data) [97] (by decide)).2.2.2 0
     (by rw [expectedSignature_length]; omega) '0' (by decide) (by decide)⟩

/-! ## C3 — absent/empty/short signature headers return `false` -/

/-- C3: for every body and non-empty secret, an absent or empty signature
header verifies `false` without raising; and any (ASCII, as hex digests
are) header whose digest after stripping the `sha256=` prefix does not
have the 64 characters of the hex HMAC digest verifies `false` without
raising — `.result false`, never `.sigError`. -/
theorem verifyWebhookSignature_absent_or_short (body : List Nat)
    (secret : List Char) (hs : secret ≠ []) :
    verifyWebhookSignature none body (some secret) = .result false
    ∧ verifyWebhookSignature (some ([])) body (some secret) = .result false
    ∧ (∀ sig : List Char, sig ≠ [] → (∀ c ∈ sig, c.toNat < 128) →
        (stripSigPrefix sig).length ≠ 64 →
        verifyWebhookSignature (some sig) body (some secret) = .result false) := by
  have hse := isEmpty_false_of_ne_nil hs
  refine ⟨?_, ?_, ?_⟩
  · unfold verifyWebhookSignature
    simp [hse]
  · unfold verifyWebhookSignature
    simp [hse]
  · intro sig hg hasc hlen
    rw [verifyWebhookSignature_some secret sig body hse
      (isEmpty_false_of_ne_nil hg)]
    have hstripasc : ∀ c ∈ stripSigPrefix sig, c.toNat < 128 :=
      fun c hc => hasc c (stripSigPrefix_subset hc)
    have hcond : (utf8Encode (stripSigPrefix sig)).length
        ≠ (utf8Encode (expectedSignature secret body)).length := by
      rw [utf8_len_ascii _ hstripasc, expectedBuffer_length]
      exact hlen
    rw [if_pos hcond]

/-- Witness for C3: concrete absent header and truncated header
(`sha256=abc`, 3-character digest) at secret `"k"`, via the theorem. -/
theorem verifyWebhookSignature_absent_or_short_witness :
    verifyWebhookSignature none [104, 105] (some ("k".data)) = .result false
    ∧ verifyWebhookSignature (some ("sha256=abc".data)) [104, 105]
        (some ("k".data)) = .result false :=
  ⟨(verifyWebhookSignature_absent_or_short [104, 105] ("k".data)
      (by decide)).1,
   (verifyWebhookSignature_absent_or_short [104, 105] ("k".data)
      (by decide)).2.2 ("sha256=abc".data) (by decide) (by decide)
      (by decide)⟩
